import Mathlib

/-!
Verification development for the bulk file retention analyzer.

Shallow embedding of the orchestration pipeline of the repository:
the backoff helper (utils.py), the Sarvam document-intelligence client
(sarvam_client.py), the chat-completion classification client
(llm_client.py), the data models (models.py), the SQLite persistence
layer (database.py, modelled as an in-memory association of rows) and
the batch driver (retention_engine.py).

Modelling conventions:
  - Python dictionaries are association lists with first-match lookup.
  - Python exceptions are `Except String` values; a raised exception is
    an `Except.error` carrying a model of the exception message
    (messages elide Python repr details such as quote marks and the
    offending data object).
  - Network outcomes are explicit inductive values supplied to each
    client function, one per request actually issued by the code.
  - Floats are modelled as `Rat`; the machine float values used by the
    code (small integers, simple decimals) are exact in this range.
  - Concurrency is serialized: `asyncio.gather`/`as_completed` over the
    per-file tasks is modelled as a left-to-right fold, which realizes
    one legal scheduling of the cooperative event loop.
-/

/-! ## models.py -/

/-- models.py ScannedFile: a file discovered during the folder scan. -/
structure ScannedFile where
  file_path : String
  file_hash : String
  file_size : Nat
  last_modified : String
deriving Repr, DecidableEq

/-- models.py ExtractionResult. The stats dict only ever holds string
values in the code (job_id, status, error), so it is modelled as an
association list of strings. -/
structure ExtractionResult where
  text : String := ""
  stats : List (String × String) := []
deriving Repr, DecidableEq

/-- models.py RetentionDecision. Scores are integers, confidence is a
float modelled as a rational. The pydantic field constraints
(ge/le bounds and the two Literal sets) are modelled separately in
`buildRetentionDecision` below. -/
structure RetentionDecision where
  retention_score : Int
  category : String
  suggested_action : String
  confidence : Rat
  reasoning : String
deriving Repr, DecidableEq

/-- models.py RetentionDecision.fallback. -/
def RetentionDecision.fallback (reason : String := "Validation failed") : RetentionDecision :=
  { retention_score := 50
    category := "unknown"
    suggested_action := "review"
    confidence := 0
    reasoning := reason }

/-- models.py FileRecord: the full database row. -/
structure FileRecord where
  id : Option Nat := none
  file_path : String
  file_hash : String
  file_size : Nat
  last_modified : String
  extracted_text : String := ""
  retention_score : Int := 0
  category : String := "unknown"
  suggested_action : String := "review"
  confidence : Rat := 0
  reasoning : String := ""
  processed_at : String := ""
deriving Repr, DecidableEq

/-- Python string slice s[:n]: the first n characters of s. -/
def strTake (s : String) (n : Nat) : String := ⟨s.data.take n⟩

/-- models.py FileRecord.from_scan_and_decision. The extracted_text
field is the Python expression extraction.text[:500] if extraction.text
else the empty string. -/
def FileRecord.from_scan_and_decision (scanned : ScannedFile) (extraction : ExtractionResult)
    (decision : RetentionDecision) (processed_at : String) : FileRecord :=
  { file_path := scanned.file_path
    file_hash := scanned.file_hash
    file_size := scanned.file_size
    last_modified := scanned.last_modified
    extracted_text := if extraction.text = "" then "" else strTake extraction.text 500
    retention_score := decision.retention_score
    category := decision.category
    suggested_action := decision.suggested_action
    confidence := decision.confidence
    reasoning := decision.reasoning
    processed_at := processed_at }

/-! ## utils.py -/

/-- utils.py exponential_backoff: min(base * 2 ^ attempt, cap) with
base 1 second and cap 30 seconds, attempt 0-indexed. -/
def exponential_backoff (attempt : Nat) (base : Nat := 1) (cap : Nat := 30) : Nat :=
  min (base * 2 ^ attempt) cap

/-- Decimal digit run to a natural number; none when empty or when a
non-digit occurs. -/
def digitsToNat? (cs : List Char) : Option Nat :=
  if cs = [] then none
  else if cs.all Char.isDigit then
    some (cs.foldl (fun acc c => acc * 10 + (c.toNat - 48)) 0)
  else none

/-- Model of the Python float() conversion applied to a string, for the
simple decimal literals that occur as Retry-After header values:
optional surrounding whitespace, optional sign, digits with at most one
decimal point. Any other string raises ValueError in Python, modelled
here as `none`. Exponent notation, underscores and the inf/nan
spellings are not modelled; no claim exercises them. -/
def parsePyFloat (s : String) : Option Rat :=
  let t := ((s.data.dropWhile Char.isWhitespace).reverse.dropWhile Char.isWhitespace).reverse
  let (neg, u) :=
    match t with
    | '-' :: rest => (true, rest)
    | '+' :: rest => (false, rest)
    | _ => (false, t)
  let mag : Option Rat :=
    match u.span (fun c => !(c == '.')) with
    | (ip, []) => (digitsToNat? ip).map (fun n => (n : Rat))
    | (ip, _ :: fp) =>
      if fp.contains '.' then none
      else if ip = [] ∧ fp = [] then none
      else
        let ipn := if ip = [] then some 0 else digitsToNat? ip
        let fpn := if fp = [] then some 0 else digitsToNat? fp
        match ipn, fpn with
        | some a, some b => some ((a : Rat) + (b : Rat) / ((10 : Rat) ^ fp.length))
        | _, _ => none
  mag.map (fun v => if neg then -v else v)

/-! ## config.py -/

/-- A configuration attribute value: string or integer. -/
inductive ConfigVal where
  | str (s : String)
  | int (n : Int)
deriving Repr, DecidableEq

/-- config.py class Config: the attributes bound in the class body,
with the default values used when the corresponding environment
variable is absent. The classmethod validate is not a data attribute
and is omitted. The class body binds no other names; in particular it
never binds SARVAM_POLLING_TIMEOUT. -/
def Config.attrs : List (String × ConfigVal) :=
  [("SARVAM_API_KEY", .str ""),
   ("SARVAM_DOC_ENDPOINT", .str "https://api.sarvam.ai/v1/document-intelligence/extract"),
   ("SARVAM_CHAT_ENDPOINT", .str "https://api.sarvam.ai/v1/chat/completions"),
   ("LLM_MODEL_NAME", .str "sarvam-2b"),
   ("DB_PATH", .str "retention.db"),
   ("MAX_CONCURRENCY", .int 5),
   ("MAX_TEXT_CHARS", .int 2000),
   ("HTTP_TIMEOUT", .int 60),
   ("MAX_RETRIES", .int 3)]

/-- Python attribute lookup Config.name: the bound value, or an
AttributeError (modelled without the Python quote marks). -/
def Config.getattr (name : String) : Except String ConfigVal :=
  match Config.attrs.find? (fun p => p.1 == name) with
  | some p => .ok p.2
  | none => .error ("AttributeError: type object Config has no attribute " ++ name)

/-- config.py Config.MAX_RETRIES default. -/
def MAX_RETRIES : Nat := 3

/-! ## llm_client.py: response validation -/

/-- A JSON value as it can occur in the parsed LLM response dict. -/
inductive JsonVal where
  | int (i : Int)
  | num (q : Rat)
  | str (s : String)
  | bool (b : Bool)
  | null
deriving Repr, DecidableEq

/-- Python dict lookup data.get(k): association-list first match. -/
def jget (data : List (String × JsonVal)) (k : String) : Option JsonVal :=
  (data.find? (fun p => p.1 == k)).map (fun p => p.2)

/-- llm_client.py _validate_decision: the five required response
fields, in the declaration order of the Python set literal. -/
def requiredFields : List String :=
  ["retention_score", "category", "suggested_action", "confidence", "reasoning"]

/-- The required fields absent from the response dict
(Python: required - data.keys(), a set; modelled as the sublist of
requiredFields without a binding). -/
def missing_fields (data : List (String × JsonVal)) : List String :=
  requiredFields.filter (fun k => (jget data k).isNone)

/-- models.py RetentionDecision Literal category values. -/
def categories : List String :=
  ["legal", "financial", "operational", "personal", "ephemeral", "unknown"]

/-- models.py RetentionDecision Literal suggested_action values. -/
def actions : List String :=
  ["delete", "archive", "retain", "review"]

/-- Pydantic construction RetentionDecision(**data): field-wise type
and range validation per the Field constraints of models.py
(retention_score an integer in 0..100, category and suggested_action in
their Literal sets, confidence a number in 0..1, reasoning a string).
A violation raises a ValidationError, modelled as an error string that
cites the offending field; pydantic collects all field errors into one
message, the model keeps the first. Lax string-to-number coercions are
not modelled; no claim exercises them. -/
def buildRetentionDecision (data : List (String × JsonVal)) : Except String RetentionDecision := do
  let score ←
    match jget data "retention_score" with
    | some (.int i) =>
      if 0 ≤ i ∧ i ≤ 100 then Except.ok i
      else Except.error "validation error for retention_score: input must be between 0 and 100"
    | _ => Except.error "validation error for retention_score: input must be a valid integer"
  let cat ←
    match jget data "category" with
    | some (.str s) =>
      if categories.contains s then Except.ok s
      else Except.error "validation error for category: input must be one of the literal values"
    | _ => Except.error "validation error for category: input must be a string literal"
  let act ←
    match jget data "suggested_action" with
    | some (.str s) =>
      if actions.contains s then Except.ok s
      else Except.error "validation error for suggested_action: input must be one of the literal values"
    | _ => Except.error "validation error for suggested_action: input must be a string literal"
  let conf ←
    match jget data "confidence" with
    | some (.num q) =>
      if 0 ≤ q ∧ q ≤ 1 then Except.ok q
      else Except.error "validation error for confidence: input must be between 0.0 and 1.0"
    | some (.int i) =>
      if 0 ≤ i ∧ i ≤ 1 then Except.ok (i : Rat)
      else Except.error "validation error for confidence: input must be between 0.0 and 1.0"
    | _ => Except.error "validation error for confidence: input must be a valid number"
  let reas ←
    match jget data "reasoning" with
    | some (.str s) => Except.ok s
    | _ => Except.error "validation error for reasoning: input must be a valid string"
  Except.ok { retention_score := score, category := cat, suggested_action := act,
              confidence := conf, reasoning := reas }

/-- llm_client.py _validate_decision: missing required fields give the
fallback decision whose reasoning names the missing-field set (the
Python set repr is modelled as the Lean list toString, without quote
marks); a pydantic ValidationError gives the fallback decision whose
reasoning is the error text. -/
def validate_decision (data : List (String × JsonVal)) : RetentionDecision :=
  let missing := missing_fields data
  if missing = [] then
    match buildRetentionDecision data with
    | .ok d => d
    | .error e => RetentionDecision.fallback e
  else
    RetentionDecision.fallback ("Missing fields: " ++ toString missing)

/-! ## llm_client.py: classify_document -/

/-- The message content of one choice of the chat response, as seen by
utils.safe_json_parse: either it parses to a JSON dict or it does not
(empty content, non-JSON text, or JSON that is not a dict). The
fence-stripping detail of safe_json_parse is below this abstraction;
no claim exercises it. -/
inductive LlmContent where
  | parsed (data : List (String × JsonVal))
  | unparsable
deriving Repr

/-- The body of an HTTP 200 chat response: either response.json()
raises (body is not JSON), or it yields a dict whose optional choices
key holds a list of choice contents (a missing choices key defaults to
a single empty-content choice in the code path). -/
inductive LlmBody where
  | notJson
  | json (choices : Option (List LlmContent))
deriving Repr

/-- One network outcome of the chat-completion POST. -/
inductive LlmResponse where
  | http (code : Nat) (retryAfter : Option String) (body : LlmBody)
  | timeout
  | requestError (msg : String)
deriving Repr

/-- llm_client.py line 137: the wait used for a 429 response,
float(response.headers.get("Retry-After", exponential_backoff(attempt))).
A present but non-numeric header makes float() raise ValueError, which
classify_document does not catch. -/
def retryAfterSeconds (retryAfter : Option String) (attempt : Nat) : Except String Rat :=
  match retryAfter with
  | none => .ok (exponential_backoff attempt : Nat)
  | some s =>
    match parsePyFloat s with
    | some v => .ok v
    | none => .error ("ValueError: could not convert string to float: " ++ s)

/-- llm_client.py classify_document retry loop body, one constructor of
LlmResponse consumed per attempt; fuel is the number of remaining
attempts of the for-range loop (initially Config.MAX_RETRIES).
Uncaught exceptions (response.json() on a non-JSON 200 body, the
IndexError on an empty choices list, the ValueError from a non-numeric
Retry-After header) are Except.error; every caught failure path is an
Except.ok carrying a fallback decision. -/
def classify_attempts (responses : Nat → LlmResponse) (attempt : Nat) :
    Nat → Except String RetentionDecision
  | 0 => .ok (RetentionDecision.fallback "Max retries exceeded")
  | fuel + 1 =>
    match responses attempt with
    | .http code retryAfter body =>
      if code = 200 then
        match body with
        | .notJson => .error "JSONDecodeError: response body is not valid JSON"
        | .json none => .ok (RetentionDecision.fallback "Invalid JSON from LLM")
        | .json (some []) => .error "IndexError: list index out of range"
        | .json (some (c :: _)) =>
          match c with
          | .unparsable => .ok (RetentionDecision.fallback "Invalid JSON from LLM")
          | .parsed data => .ok (validate_decision data)
      else if code = 429 then
        match retryAfterSeconds retryAfter attempt with
        | .ok _ => classify_attempts responses (attempt + 1) fuel
        | .error e => .error e
      else if 500 ≤ code then
        classify_attempts responses (attempt + 1) fuel
      else
        .ok (RetentionDecision.fallback ("HTTP " ++ toString code))
    | .timeout => classify_attempts responses (attempt + 1) fuel
    | .requestError m => .ok (RetentionDecision.fallback ("Network error: " ++ m))

/-- llm_client.py classify_document: runs the attempt loop with
Config.MAX_RETRIES attempts; exhausting the loop returns the fallback
decision with reasoning Max retries exceeded. -/
def classify_document (responses : Nat → LlmResponse) : Except String RetentionDecision :=
  classify_attempts responses 0 MAX_RETRIES

/-! ## sarvam_client.py: job steps -/

/-- Outcome of the job-creation POST of sarvam_client._create_job: an
HTTP response whose JSON body optionally carries a job_id, or a
transport-level request error (timeouts are request errors). -/
inductive CreateResponse where
  | http (code : Nat) (job_id : Option String)
  | requestError (msg : String)
deriving Repr

/-- sarvam_client._create_job on its single POST outcome:
raise_for_status turns any status of 400 and above into
SarvamClientError Create job failed; a missing or empty job_id is
SarvamClientError Job creation response missing job_id; a request
error is SarvamClientError Network error. -/
def create_job_attempt : CreateResponse → Except String String
  | .http code job_id =>
    if 400 ≤ code then .error ("Create job failed: HTTP " ++ toString code)
    else
      match job_id with
      | some j => if j = "" then .error "Job creation response missing job_id" else .ok j
      | none => .error "Job creation response missing job_id"
  | .requestError m => .error ("Network error: " ++ m)

/-- sarvam_client._create_job issues exactly one POST: only the first
element of the outcome sequence is ever consumed; there is no retry
loop around the request. -/
def create_job (responses : Nat → CreateResponse) : Except String String :=
  create_job_attempt (responses 0)

/-- Outcome of the job-start POST of sarvam_client._start_job. -/
inductive StartResponse where
  | http (code : Nat)
  | requestError (msg : String)
deriving Repr

/-- sarvam_client._start_job on its single POST outcome: an HTTP error
status is SarvamClientError Start job failed; a request error is not
caught by _start_job and propagates with its own message. -/
def start_job_attempt : StartResponse → Except String Unit
  | .http code =>
    if 400 ≤ code then .error ("Start job failed: HTTP " ++ toString code) else .ok ()
  | .requestError m => .error m

/-- sarvam_client._start_job issues exactly one POST: only the first
element of the outcome sequence is ever consumed; no retry loop. -/
def start_job (responses : Nat → StartResponse) : Except String Unit :=
  start_job_attempt (responses 0)

/-! ## sarvam_client.py: _poll_job -/

/-- Outcome of one status GET inside the polling loop: a successful
JSON body carrying job_state (data.get with default Unknown) and the
optional error_message, an HTTP error status (caught, logged, and
re-polled after the sleep), or a transport-level request error (not
caught by _poll_job; it propagates). -/
inductive PollResponse where
  | ok (job_state : String) (error_message : Option String)
  | httpError (code : Nat)
  | requestError (msg : String)
deriving Repr

/-- The status data returned by a completed poll. -/
structure PollData where
  job_state : String
  error_message : Option String
deriving Repr, DecidableEq

/-- The polling loop of sarvam_client._poll_job, given the wall-clock
budget value: at the top of each iteration the elapsed time is
compared against the budget (strictly greater forces the timeout
error); a Completed state returns the status data; a Failed state
raises SarvamClientError Job failed with the service error message
(default Unknown error); any other state, and any HTTP error status,
sleeps 2 seconds and re-polls. Elapsed time advances by the 2-second
sleep per non-terminal iteration; network time is not modelled, which
only shortens the modelled elapsed time. -/
def poll_job_loop (timeout : Int) (responses : Nat → PollResponse) (job_id : String)
    (i : Nat) (elapsed : Int) : Except String PollData :=
  if elapsed > timeout then
    .error ("Job " ++ job_id ++ " timed out after " ++ toString timeout ++ "s.")
  else
    match responses i with
    | .ok st em =>
      if st = "Completed" then .ok ⟨st, em⟩
      else if st = "Failed" then .error ("Job failed: " ++ em.getD "Unknown error")
      else poll_job_loop timeout responses job_id (i + 1) (elapsed + 2)
    | .httpError _ => poll_job_loop timeout responses job_id (i + 1) (elapsed + 2)
    | .requestError m => .error m
termination_by (timeout + 1 - elapsed).toNat
decreasing_by
  all_goals simp_wf
  all_goals omega

/-- sarvam_client._poll_job: every iteration of the loop reads
Config.SARVAM_POLLING_TIMEOUT before anything else. The attribute read
is a pure constant, so it is hoisted in front of the loop; since
config.py never defines SARVAM_POLLING_TIMEOUT, the read raises
AttributeError before the first status request is issued. -/
def poll_job (job_id : String) (responses : Nat → PollResponse) : Except String PollData := do
  let tv ← Config.getattr "SARVAM_POLLING_TIMEOUT"
  match tv with
  | .int timeout => poll_job_loop timeout responses job_id 0 0
  | .str s => .error ("TypeError: comparison of float and str: " ++ s)

/-! ## sarvam_client.py: download and archive extraction -/

/-- One entry of the result zip archive: a name and its decoded text
content (the utf-8 decode is not modelled; contents are strings). -/
structure ArchiveEntry where
  name : String
  content : String
deriving Repr, DecidableEq

/-- The downloaded archive: either corrupt (zipfile.BadZipFile) or a
list of entries in namelist order. -/
inductive Archive where
  | badZip
  | entries (l : List ArchiveEntry)
deriving Repr

/-- zipfile namelist(). -/
def namelist (l : List ArchiveEntry) : List String := l.map (fun e => e.name)

/-- zipfile read(name) decoded: the content of the first entry with the
given name (names are unique in well-formed archives; the model mirrors
first-match lookup). -/
def zread (l : List ArchiveEntry) (name : String) : String :=
  ((l.find? (fun e => e.name == name)).map (fun e => e.content)).getD ""

/-- Python str.endswith: suffix test on the character list. -/
def strEndsWith (s suffix : String) : Bool :=
  suffix.data.isSuffixOf s.data

/-- The content selection of sarvam_client._get_download_url_and_extract
inside the zip: the first name ending in .md, else the first name
ending in .json, else the first name of the archive, else none. -/
def selectTarget (names : List String) : Option String :=
  match names.filter (fun n => strEndsWith n ".md") with
  | n :: _ => some n
  | [] =>
    match names.filter (fun n => strEndsWith n ".json") with
    | n :: _ => some n
    | [] => names.head?

/-- The archive-extraction tail of _get_download_url_and_extract: a
corrupt archive raises SarvamClientError Invalid ZIP file received;
an archive with no selectable entry logs a warning and returns the
empty string (a successful return, not an error); otherwise the text
of the selected entry is returned. -/
def extractArchive : Archive → Except String String
  | .badZip => .error "Invalid ZIP file received."
  | .entries l =>
    match selectTarget (namelist l) with
    | none => .ok ""
    | some t => .ok (zread l t)

/-- A value of the upload_urls or download_urls dicts: the expected
one-field dict with file_url, a bare string, or anything else. -/
inductive UrlVal where
  | dict (file_url : Option String)
  | str (url : String)
  | other
deriving Repr

/-- The link resolution applied to one dict value in extract_text and
in _get_download_url_and_extract: a dict yields its file_url, a string
yields itself, anything else yields none; Python falsiness collapses
the empty string to none. -/
def linkOf : UrlVal → Option String
  | .dict u =>
    match u with
    | some s => if s = "" then none else some s
    | none => none
  | .str s => if s = "" then none else some s
  | .other => none

/-- The environment of _get_download_url_and_extract: the outcome of
the download-files POST (an HTTP error status or the download_urls
dict) and the outcome of the zip GET (an HTTP error status or the
archive bytes). -/
structure DownloadEnv where
  post : Except Nat (List (String × UrlVal))
  fetch : Except Nat Archive

/-- sarvam_client._get_download_url_and_extract: an HTTP error on
either request is SarvamClientError Download failed; an empty
download_urls dict, or a first value with no resolvable link, returns
the empty string (not an error); otherwise the archive is fetched and
its selected entry extracted. -/
def get_download_url_and_extract (env : DownloadEnv) : Except String String :=
  match env.post with
  | .error code => .error ("Download failed: HTTP " ++ toString code)
  | .ok urls =>
    match urls with
    | [] => .ok ""
    | u :: _ =>
      match linkOf u.2 with
      | none => .ok ""
      | some _ =>
        match env.fetch with
        | .error code => .error ("Download failed: HTTP " ++ toString code)
        | .ok archive => extractArchive archive

/-! ## sarvam_client.py: extract_text -/

/-- Outcome of the upload-files POST of _get_upload_urls. -/
inductive UploadUrlsResponse where
  | http (code : Nat) (upload_urls : List (String × UrlVal))
  | requestError (msg : String)
deriving Repr

/-- sarvam_client._get_upload_urls on its single POST outcome: an HTTP
error status is SarvamClientError Upload URL request failed; a request
error is not caught by _get_upload_urls and propagates. -/
def get_upload_urls : UploadUrlsResponse → Except String (List (String × UrlVal))
  | .http code urls =>
    if 400 ≤ code then .error ("Upload URL request failed: HTTP " ++ toString code)
    else .ok urls
  | .requestError m => .error m

/-- Outcome of the blob PUT of _upload_to_blob (an HTTP error status,
a request error and an IOError are all caught by the same handler). -/
inductive UploadResponse where
  | ok
  | failed (msg : String)
deriving Repr

/-- sarvam_client._upload_to_blob: any failure of the read or the PUT
is SarvamClientError Blob upload failed. -/
def upload_to_blob : UploadResponse → Except String Unit
  | .ok => .ok ()
  | .failed m => .error ("Blob upload failed: " ++ m)

/-- Python os.path.basename for forward-slash paths. -/
def basename (p : String) : String :=
  match (p.split (· == '/')).getLast? with
  | some s => s
  | none => p

/-- The upload-url resolution of extract_text lines 266..285: look up
the file name in the upload_urls dict (dict value: its file_url; string
value: itself); if that yields nothing and the dict is non-empty, fall
back to the first value of the dict, resolved the same way. -/
def resolveUploadUrl (urls : List (String × UrlVal)) (filename : String) : Option String :=
  let direct :=
    match urls.find? (fun p => p.1 == filename) with
    | some p => linkOf p.2
    | none => none
  match direct with
  | some u => some u
  | none =>
    match urls with
    | [] => none
    | p :: _ => linkOf p.2

/-- The remote outcomes consumed by one run of extract_text, one field
per request the code can issue. -/
structure SarvamEnv where
  create : CreateResponse
  uploadUrls : UploadUrlsResponse
  upload : UploadResponse
  start : StartResponse
  poll : Nat → PollResponse
  download : DownloadEnv

/-- The body of sarvam_client.extract_text inside its try block:
create job, resolve the upload URL (a missing URL raises
SarvamClientError No upload URL found), upload, start, poll, download
and extract. Returns the extracted text and the job id. -/
def extract_textE (env : SarvamEnv) (file_path : String) : Except String (String × String) := do
  let job_id ← create_job_attempt env.create
  let upload_urls ← get_upload_urls env.uploadUrls
  let filename := basename file_path
  match resolveUploadUrl upload_urls filename with
  | none => .error ("No upload URL found for " ++ filename)
  | some _ => do
    let _ ← upload_to_blob env.upload
    let _ ← start_job_attempt env.start
    let _ ← poll_job job_id env.poll
    let text ← get_download_url_and_extract env.download
    return (text, job_id)

/-- sarvam_client.extract_text: the try/except boundary. Every
exception raised inside the workflow (SarvamClientError or any other)
is caught and converted to an ExtractionResult with empty text and an
error stat; a completed workflow yields the text with job_id and
status stats. -/
def extract_text (env : SarvamEnv) (file_path : String) : ExtractionResult :=
  match extract_textE env file_path with
  | .ok (t, j) => { text := t, stats := [("job_id", j), ("status", "Completed")] }
  | .error e => { text := "", stats := [("error", e)] }

/-! ## database.py -/

/-- database.py files table: a list of rows. The file_path column is
UNIQUE; the upsert below maintains that invariant. Rows written through
insert_or_update_file always bind processed_at to a string, so the
WHERE processed_at IS NOT NULL filter of get_processed_hashes keeps
every such row; NULL columns are not modelled. -/
def get_processed_hashes (store : List FileRecord) : List String :=
  store.map (fun r => r.file_hash)

/-- database.py get_unprocessed_files: keep the scanned files whose
hash is not among the processed hashes (hash-based skip, the path is
never consulted). -/
def get_unprocessed_files (store : List FileRecord) (scanned_files : List ScannedFile) :
    List ScannedFile :=
  let processed_hashes := get_processed_hashes store
  scanned_files.filter (fun f => !processed_hashes.contains f.file_hash)

/-- database.py insert_or_update_file: INSERT with
ON CONFLICT(file_path) DO UPDATE — replace the row with the same
file_path if one exists, else append the new row. -/
def insert_or_update_file (store : List FileRecord) (record : FileRecord) : List FileRecord :=
  if store.any (fun r => r.file_path == record.file_path) then
    store.map (fun r => if r.file_path == record.file_path then record else r)
  else
    store ++ [record]

/-! ## retention_engine.py -/

/-- The per-file collaborator outcomes consumed by one
retention_engine.process_file task: the ExtractionResult delivered by
sarvam_client.extract_text (which never raises, see
extract_text_always_returns below), the outcome of
llm_client.classify_document (which can raise, see claim C1), and the
outcome of the database write run in the executor. The semaphore and
the progress callback (whose exceptions are swallowed) carry no data
and are not modelled. -/
structure FileEnv where
  extraction : ExtractionResult
  classify : Except String RetentionDecision
  persist : Except String Unit

/-- retention_engine.process_file: extract; if the extracted text is
empty (Python falsiness of str), skip classification and use the fixed
fallback decision with reasoning No text extracted from document, else
classify; build the FileRecord; persist it; return it. Any exception
escapes to the caller (process_all catches it). -/
def process_file (scanned : ScannedFile) (env : FileEnv) (now : String) :
    Except String FileRecord :=
  match
    (if env.extraction.text = "" then
      Except.ok (RetentionDecision.fallback "No text extracted from document")
    else
      env.classify) with
  | .error e => .error e
  | .ok decision =>
    match env.persist with
    | .error e => .error e
    | .ok _ => .ok (FileRecord.from_scan_and_decision scanned env.extraction decision now)

/-- The task-gathering loop of retention_engine.process_all: each task
either returns a FileRecord, which is collected and whose database
write has been applied, or raises, which is caught at the per-task
boundary (logged and dropped) without touching the store or the result
list and without aborting the remaining tasks. Returns the collected
records and the final store. -/
def run_tasks (now : String) :
    List (ScannedFile × FileEnv) → List FileRecord → List FileRecord × List FileRecord
  | [], store => ([], store)
  | (f, env) :: rest, store =>
    match process_file f env now with
    | .ok r =>
      (r :: (run_tasks now rest (insert_or_update_file store r)).1,
       (run_tasks now rest (insert_or_update_file store r)).2)
    | .error _ => run_tasks now rest store

/-- retention_engine.process_all: filter the scanned files through the
hash-based skip (computed once against the store at batch start), then
run one task per remaining file. Returns the list of produced records
and the store after all completed writes. -/
def process_all (files : List (ScannedFile × FileEnv)) (store : List FileRecord)
    (now : String) : List FileRecord × List FileRecord :=
  let processed := get_processed_hashes store
  let to_process := files.filter (fun fe => !processed.contains fe.1.file_hash)
  run_tasks now to_process store

/-! ## Concrete sample values used by witnesses and counterexamples -/

/-- A file moved to path p with unchanged content hash h. -/
def movedFile : ScannedFile :=
  { file_path := "p", file_hash := "h", file_size := 1, last_modified := "t0" }

/-- A file at path q whose content changed to hash h2. -/
def changedFile : ScannedFile :=
  { file_path := "q", file_hash := "h2", file_size := 2, last_modified := "t1" }

/-- A pre-existing database row at path q carrying hash h. -/
def priorRow : FileRecord :=
  { file_path := "q", file_hash := "h", file_size := 1, last_modified := "t0",
    processed_at := "t0" }

/-- A per-file environment in which every collaborator succeeds. -/
def okEnv : FileEnv :=
  { extraction := { text := "some text", stats := [] }
    classify := Except.ok { retention_score := 80, category := "legal",
                            suggested_action := "retain", confidence := 1, reasoning := "ok" }
    persist := Except.ok () }

/-- A file whose pipeline fails entirely. -/
def failFile : ScannedFile :=
  { file_path := "p1", file_hash := "hash1", file_size := 1, last_modified := "t" }

/-- A per-file environment whose classification call raises. -/
def failEnv : FileEnv :=
  { extraction := { text := "some text", stats := [] }
    classify := Except.error "boom"
    persist := Except.ok () }

/-- Two scanned files with identical content (the same fingerprint) at
different paths. -/
def dupA : ScannedFile :=
  { file_path := "pa", file_hash := "dh", file_size := 1, last_modified := "t" }

/-- See dupA. -/
def dupB : ScannedFile :=
  { file_path := "pb", file_hash := "dh", file_size := 1, last_modified := "t" }

/-! ## Theorems -/

/-- sarvam_client.extract_text never raises to its caller: for every
environment of remote outcomes it returns an ExtractionResult, either
the empty-text error shape or the completed shape. -/
theorem extract_text_always_returns (env : SarvamEnv) (p : String) :
    (∃ e, extract_text env p = { text := "", stats := [("error", e)] }) ∨
    (∃ t j, extract_text env p = { text := t, stats := [("job_id", j), ("status", "Completed")] }) := by
  unfold extract_text
  cases h : extract_textE env p with
  | ok v => exact Or.inr ⟨v.1, v.2, by simp⟩
  | error e => exact Or.inl ⟨e, by simp⟩

/-- Claim C2: the backoff delay is exactly min(1 * 2 ^ n, 30) for every
0-indexed attempt n, with values 1, 2, 4, 8, 16, 30, 30 on attempts 0
through 6; and the wait used for a 429 classification response with a
Retry-After header of 5 is 5, whatever the attempt number, while an
absent header falls back to the formula value. -/
theorem claim_C2_backoff_formula :
    (∀ n : Nat, exponential_backoff n = min (1 * 2 ^ n) 30) ∧
    ((List.range 7).map (fun n => exponential_backoff n) = [1, 2, 4, 8, 16, 30, 30]) ∧
    (∀ attempt : Nat, retryAfterSeconds (some "5") attempt = Except.ok 5) ∧
    (∀ attempt : Nat, retryAfterSeconds none attempt = Except.ok (exponential_backoff attempt : Nat)) := by
  refine ⟨fun n => rfl, by decide, fun attempt => ?_, fun attempt => rfl⟩
  have h : parsePyFloat "5" = some 5 := by decide
  simp [retryAfterSeconds, h]

/-- Claim C10: the persisted record keeps only the first 500 characters
of the extracted text and copies every other field through unchanged
from its inputs. -/
theorem claim_C10_truncated_persistence :
    ∀ (scanned : ScannedFile) (extraction : ExtractionResult)
      (decision : RetentionDecision) (now : String),
      (FileRecord.from_scan_and_decision scanned extraction decision now).extracted_text.data
          = extraction.text.data.take 500 ∧
      (FileRecord.from_scan_and_decision scanned extraction decision now).extracted_text.length ≤ 500 ∧
      (FileRecord.from_scan_and_decision scanned extraction decision now).file_path = scanned.file_path ∧
      (FileRecord.from_scan_and_decision scanned extraction decision now).file_hash = scanned.file_hash ∧
      (FileRecord.from_scan_and_decision scanned extraction decision now).file_size = scanned.file_size ∧
      (FileRecord.from_scan_and_decision scanned extraction decision now).last_modified = scanned.last_modified ∧
      (FileRecord.from_scan_and_decision scanned extraction decision now).retention_score = decision.retention_score ∧
      (FileRecord.from_scan_and_decision scanned extraction decision now).category = decision.category ∧
      (FileRecord.from_scan_and_decision scanned extraction decision now).suggested_action = decision.suggested_action ∧
      (FileRecord.from_scan_and_decision scanned extraction decision now).confidence = decision.confidence ∧
      (FileRecord.from_scan_and_decision scanned extraction decision now).reasoning = decision.reasoning ∧
      (FileRecord.from_scan_and_decision scanned extraction decision now).processed_at = now ∧
      (FileRecord.from_scan_and_decision scanned extraction decision now).id = none := by
  intro scanned extraction decision now
  have hdata : (FileRecord.from_scan_and_decision scanned extraction decision now).extracted_text.data
      = extraction.text.data.take 500 := by
    by_cases h : extraction.text = ""
    · simp [FileRecord.from_scan_and_decision, h]
    · simp [FileRecord.from_scan_and_decision, h, strTake]
  refine ⟨hdata, ?_, rfl, rfl, rfl, rfl, rfl, rfl, rfl, rfl, rfl, rfl, rfl⟩
  show (FileRecord.from_scan_and_decision scanned extraction decision now).extracted_text.data.length ≤ 500
  rw [hdata]
  exact List.length_take_le 500 _

/-- Claim C3 (code bug): _poll_job reads Config.SARVAM_POLLING_TIMEOUT,
an attribute config.py never defines, so the very first loop iteration
raises AttributeError: even a status endpoint that reports Completed
immediately never has its status data returned, no wall-clock budget is
ever waited out, and no remote Failed message is ever surfaced. -/
theorem claim_C3_poll_attribute_error :
    poll_job "job-1" (fun _ => PollResponse.ok "Completed" none)
      = Except.error "AttributeError: type object Config has no attribute SARVAM_POLLING_TIMEOUT" := by
  rfl

/-- Claim C1 (code bug): classify_document is not exception-free. A 429
response whose Retry-After header is not numeric makes the uncaught
float() conversion raise ValueError to the caller instead of yielding a
fallback RetentionDecision. (extract_text, by contrast, does satisfy
the claim: see extract_text_always_returns.) -/
theorem claim_C1_classify_uncaught_valueerror :
    classify_document (fun _ => LlmResponse.http 429 (some "tomorrow") (LlmBody.json none))
      = Except.error "ValueError: could not convert string to float: tomorrow" := by
  rfl

/-- Claim C7 counterexample: an archive with no entries is not Fatal.
The code logs a warning and returns the empty string as a successful
value, so the claimed Fatal outcome with reason empty or unrecognized
archive never happens; extract_text then reports status Completed with
empty text. -/
theorem claim_C7_counterexample :
    extractArchive (Archive.entries []) = Except.ok "" ∧
    (extractArchive (Archive.entries [])).isOk = true := by
  exact ⟨rfl, rfl⟩

/-- In a list of archive entries with pairwise distinct names, name
lookup of a member entry returns that entry. -/
theorem find_entry_of_mem {l : List ArchiveEntry} {e : ArchiveEntry}
    (hmem : e ∈ l) (hnd : (namelist l).Nodup) :
    l.find? (fun x => x.name == e.name) = some e := by
  induction l with
  | nil => cases hmem
  | cons a t ih =>
    have hnd' : (namelist t).Nodup := by
      simpa [namelist] using (List.nodup_cons.mp (by simpa [namelist] using hnd)).2
    rcases List.mem_cons.mp hmem with rfl | hmem'
    · simp [List.find?]
    · have hne : a.name ≠ e.name := by
        have hin : e.name ∈ namelist t := List.mem_map.mpr ⟨e, hmem', rfl⟩
        have hnotin : a.name ∉ namelist t :=
          (List.nodup_cons.mp (by simpa [namelist] using hnd)).1
        intro hEq
        exact hnotin (hEq ▸ hin)
      have hbe : (a.name == e.name) = false := beq_eq_false_iff_ne.mpr hne
      simp [List.find?, hbe, ih hmem' hnd']

/-- The archive selection of _get_download_url_and_extract expressed
over entries instead of names. -/
theorem selectTarget_eq (l : List ArchiveEntry) :
    selectTarget (namelist l) =
      match l.filter (fun e => strEndsWith e.name ".md") with
      | e :: _ => some e.name
      | [] =>
        match l.filter (fun e => strEndsWith e.name ".json") with
        | e :: _ => some e.name
        | [] => (l.head?).map (fun e => e.name) := by
  unfold selectTarget namelist
  rw [List.filter_map, List.filter_map, List.head?_map]
  rw [show List.filter ((fun n => strEndsWith n ".md") ∘ fun e : ArchiveEntry => e.name) l
        = List.filter (fun e : ArchiveEntry => strEndsWith e.name ".md") l from rfl]
  rw [show List.filter ((fun n => strEndsWith n ".json") ∘ fun e : ArchiveEntry => e.name) l
        = List.filter (fun e : ArchiveEntry => strEndsWith e.name ".json") l from rfl]
  cases l.filter (fun e : ArchiveEntry => strEndsWith e.name ".md") with
  | cons e es => rfl
  | nil =>
    cases l.filter (fun e : ArchiveEntry => strEndsWith e.name ".json") with
    | cons e es => rfl
    | nil => rfl

/-- Claim C7 amended: the selection policy is first .md entry, else
first .json entry, else the first entry; a corrupt archive is Fatal
with message Invalid ZIP file received; but an archive with no entries
returns the empty string as a successful value instead of being Fatal.
An archive holding a.json and b.md yields the text of b.md. -/
theorem claim_C7_amended_thm :
    (extractArchive Archive.badZip = Except.error "Invalid ZIP file received.") ∧
    (extractArchive (Archive.entries []) = Except.ok "") ∧
    (∀ l : List ArchiveEntry, (namelist l).Nodup →
       extractArchive (Archive.entries l) =
         match l.filter (fun e => strEndsWith e.name ".md") with
         | e :: _ => Except.ok e.content
         | [] =>
           match l.filter (fun e => strEndsWith e.name ".json") with
           | e :: _ => Except.ok e.content
           | [] =>
             match l with
             | e :: _ => Except.ok e.content
             | [] => Except.ok "") ∧
    (extractArchive (Archive.entries
        [{ name := "a.json", content := "JSON-TEXT" }, { name := "b.md", content := "MD-TEXT" }])
      = Except.ok "MD-TEXT") := by
  refine ⟨rfl, rfl, ?_, rfl⟩
  intro l hnd
  rw [show extractArchive (Archive.entries l)
        = (match selectTarget (namelist l) with
           | none => Except.ok ""
           | some t => Except.ok (zread l t)) from rfl]
  rw [selectTarget_eq l]
  cases hmd : l.filter (fun e : ArchiveEntry => strEndsWith e.name ".md") with
  | cons e es =>
    have hemem : e ∈ l :=
      List.mem_of_mem_filter (p := fun e : ArchiveEntry => strEndsWith e.name ".md")
        (by rw [hmd]; exact List.mem_cons_self e es)
    show Except.ok (zread l e.name) = Except.ok e.content
    unfold zread
    rw [find_entry_of_mem hemem hnd]
    rfl
  | nil =>
    cases hjs : l.filter (fun e : ArchiveEntry => strEndsWith e.name ".json") with
    | cons e es =>
      have hemem : e ∈ l :=
        List.mem_of_mem_filter (p := fun e : ArchiveEntry => strEndsWith e.name ".json")
          (by rw [hjs]; exact List.mem_cons_self e es)
      show Except.ok (zread l e.name) = Except.ok e.content
      unfold zread
      rw [find_entry_of_mem hemem hnd]
      rfl
    | nil =>
      cases l with
      | nil => rfl
      | cons a t =>
        show Except.ok (zread (a :: t) a.name) = Except.ok a.content
        unfold zread
        rw [find_entry_of_mem (List.mem_cons_self a t) hnd]
        rfl

/-- Claim C7 amended witness: applying the selection characterization
to a concrete two-entry archive with no markdown entry selects the
json entry. -/
theorem claim_C7_amended_witness :
    (namelist [{ name := "x.bin", content := "B" }, { name := "c.json", content := "J" }]).Nodup ∧
    extractArchive (Archive.entries
        [{ name := "x.bin", content := "B" }, { name := "c.json", content := "J" }])
      = Except.ok "J" := by
  constructor
  · decide
  · have h := claim_C7_amended_thm.2.2.1
      [{ name := "x.bin", content := "B" }, { name := "c.json", content := "J" }] (by decide)
    exact h.trans rfl

/-- Claim C4 counterexample: the first job-creation outcome is a
retryable HTTP 503, the next outcome would be a success carrying
job-1; the claimed retry loop would re-attempt and return job-1 (or,
on exhaustion, fail with reason max retries exceeded), but _create_job
becomes fatal immediately on the first 503 and its reason is the
create-step error, not max retries exceeded. -/
theorem claim_C4_counterexample :
    create_job (fun n => if n = 0 then CreateResponse.http 503 none
                         else CreateResponse.http 200 (some "job-1"))
      = Except.error "Create job failed: HTTP 503" ∧
    create_job (fun n => if n = 0 then CreateResponse.http 503 none
                         else CreateResponse.http 200 (some "job-1"))
      ≠ Except.ok "job-1" := by
  refine ⟨rfl, ?_⟩
  intro h
  rw [show create_job (fun n => if n = 0 then CreateResponse.http 503 none
        else CreateResponse.http 200 (some "job-1"))
      = Except.error "Create job failed: HTTP 503" from rfl] at h
  exact Except.noConfusion h

/-- Claim C4 amended: the extraction job steps are attempted exactly
once; only the first outcome of the sequence is ever consumed, and a
retryable outcome (429 or a 5xx status) on the first attempt makes the
step immediately fatal. Only the classification call retries: a 5xx
followed by a success yields the success, and all-5xx outcomes exhaust
Config.MAX_RETRIES attempts and produce the fallback decision with
reasoning Max retries exceeded. -/
theorem claim_C4_amended_thm :
    (∀ r₁ r₂ : Nat → CreateResponse, r₁ 0 = r₂ 0 → create_job r₁ = create_job r₂) ∧
    (∀ (r : Nat → CreateResponse) (c : Nat) (jid : Option String),
       r 0 = CreateResponse.http c jid → (c = 429 ∨ 500 ≤ c) →
       create_job r = Except.error ("Create job failed: HTTP " ++ toString c)) ∧
    (∀ (r : Nat → StartResponse) (c : Nat),
       r 0 = StartResponse.http c → (c = 429 ∨ 500 ≤ c) →
       start_job r = Except.error ("Start job failed: HTTP " ++ toString c)) ∧
    (classify_document (fun n =>
        if n = 0 then LlmResponse.http 503 none (LlmBody.json none)
        else LlmResponse.http 200 none (LlmBody.json (some [LlmContent.parsed
          [("retention_score", JsonVal.int 80), ("category", JsonVal.str "legal"),
           ("suggested_action", JsonVal.str "retain"), ("confidence", JsonVal.num 1),
           ("reasoning", JsonVal.str "ok")]])))
      = Except.ok { retention_score := 80, category := "legal", suggested_action := "retain",
                    confidence := 1, reasoning := "ok" }) ∧
    (classify_document (fun _ => LlmResponse.http 503 none (LlmBody.json none))
      = Except.ok (RetentionDecision.fallback "Max retries exceeded")) := by
  refine ⟨?_, ?_, ?_, rfl, rfl⟩
  · intro r₁ r₂ h
    unfold create_job
    rw [h]
  · intro r c jid h hc
    have h400 : 400 ≤ c := by omega
    unfold create_job
    rw [h]
    unfold create_job_attempt
    simp [h400]
  · intro r c h hc
    have h400 : 400 ≤ c := by omega
    unfold start_job
    rw [h]
    unfold start_job_attempt
    simp [h400]

/-- Claim C4 amended witness: the single-attempt fatality applied to a
concrete 502 on job creation and a concrete 429 on job start. -/
theorem claim_C4_amended_witness :
    create_job (fun _ => CreateResponse.http 502 none)
      = Except.error "Create job failed: HTTP 502" ∧
    start_job (fun _ => StartResponse.http 429)
      = Except.error "Start job failed: HTTP 429" := by
  constructor
  · exact claim_C4_amended_thm.2.1 (fun _ => CreateResponse.http 502 none) 502 none rfl
      (Or.inr (by omega))
  · exact claim_C4_amended_thm.2.2.1 (fun _ => StartResponse.http 429) 429 rfl (Or.inl rfl)

/-- Claim C6: a response dict missing required fields validates to
exactly the fallback decision (score 50, category unknown, action
review, confidence 0.0) whose reasoning names the missing-field set; a
dict with all fields present but an out-of-range or mistyped value
validates to the fallback decision whose reasoning is the validation
error. The two closed conjuncts instantiate this at a dict missing
confidence and at a dict with retention_score 150. -/
theorem claim_C6_validation_fallback :
    (∀ reason, RetentionDecision.fallback reason
       = { retention_score := 50, category := "unknown", suggested_action := "review",
           confidence := 0, reasoning := reason }) ∧
    (∀ data : List (String × JsonVal), missing_fields data ≠ [] →
       validate_decision data
         = RetentionDecision.fallback ("Missing fields: " ++ toString (missing_fields data))) ∧
    (∀ (data : List (String × JsonVal)) (e : String), missing_fields data = [] →
       buildRetentionDecision data = Except.error e →
       validate_decision data = RetentionDecision.fallback e) ∧
    (validate_decision
        [("retention_score", JsonVal.int 50), ("category", JsonVal.str "legal"),
         ("suggested_action", JsonVal.str "review"), ("reasoning", JsonVal.str "r")]
      = { retention_score := 50, category := "unknown", suggested_action := "review",
          confidence := 0, reasoning := "Missing fields: [confidence]" }) ∧
    (validate_decision
        [("retention_score", JsonVal.int 150), ("category", JsonVal.str "legal"),
         ("suggested_action", JsonVal.str "review"), ("confidence", JsonVal.num 1),
         ("reasoning", JsonVal.str "r")]
      = RetentionDecision.fallback
          "validation error for retention_score: input must be between 0 and 100") := by
  refine ⟨fun reason => rfl, ?_, ?_, by decide, by decide⟩
  · intro data h
    unfold validate_decision
    simp only [if_neg h]
  · intro data e hmiss hbuild
    unfold validate_decision
    simp only [hmiss, if_pos, hbuild]

/-- Claim C6 witness: the missing-field branch applied to a dict
holding only retention_score, and the validation-error branch applied
to a dict whose confidence is 2. -/
theorem claim_C6_witness :
    missing_fields [("retention_score", JsonVal.int 10)] ≠ [] ∧
    (validate_decision [("retention_score", JsonVal.int 10)]).category = "unknown" ∧
    validate_decision
        [("retention_score", JsonVal.int 10), ("category", JsonVal.str "legal"),
         ("suggested_action", JsonVal.str "review"), ("confidence", JsonVal.int 2),
         ("reasoning", JsonVal.str "r")]
      = RetentionDecision.fallback
          "validation error for confidence: input must be between 0.0 and 1.0" := by
  refine ⟨by decide, ?_, ?_⟩
  · rw [claim_C6_validation_fallback.2.1 [("retention_score", JsonVal.int 10)] (by decide)]
    rfl
  · exact claim_C6_validation_fallback.2.2.1
      [("retention_score", JsonVal.int 10), ("category", JsonVal.str "legal"),
       ("suggested_action", JsonVal.str "review"), ("confidence", JsonVal.int 2),
       ("reasoning", JsonVal.str "r")]
      "validation error for confidence: input must be between 0.0 and 1.0"
      (by decide) (by rfl)

/-- Claim C8: when extraction yields empty text the per-file pipeline
never consults the classifier (the result is independent of the
classification outcome) and applies the fixed fallback decision with
reasoning No text extracted from document; when the text is non-empty
the classification outcome flows through, so the classifier is invoked
exactly in that case. -/
theorem claim_C8_empty_text_shortcircuit :
    (∀ (s : ScannedFile) (ex : ExtractionResult) (c₁ c₂ : Except String RetentionDecision)
       (p : Except String Unit) (now : String), ex.text = "" →
       process_file s { extraction := ex, classify := c₁, persist := p } now
         = process_file s { extraction := ex, classify := c₂, persist := p } now) ∧
    (∀ (s : ScannedFile) (env : FileEnv) (now : String) (r : FileRecord),
       env.extraction.text = "" → process_file s env now = Except.ok r →
       r.retention_score = 50 ∧ r.category = "unknown" ∧ r.suggested_action = "review" ∧
       r.confidence = 0 ∧ r.reasoning = "No text extracted from document") ∧
    (∀ (s : ScannedFile) (env : FileEnv) (now : String) (m : String),
       env.extraction.text ≠ "" → env.classify = Except.error m →
       process_file s env now = Except.error m) ∧
    (∀ (s : ScannedFile) (env : FileEnv) (now : String) (d : RetentionDecision),
       env.extraction.text ≠ "" → env.classify = Except.ok d → env.persist = Except.ok () →
       process_file s env now
         = Except.ok (FileRecord.from_scan_and_decision s env.extraction d now)) := by
  refine ⟨?_, ?_, ?_, ?_⟩
  · intro s ex c₁ c₂ p now h
    simp [process_file, h]
  · intro s env now r h hok
    unfold process_file at hok
    rw [if_pos h] at hok
    cases hp : env.persist with
    | ok u =>
      cases u
      simp only [hp] at hok
      simp only [Except.ok.injEq] at hok
      subst hok
      exact ⟨rfl, rfl, rfl, rfl, rfl⟩
    | error e =>
      simp only [hp] at hok
      exact absurd hok (by simp)
  · intro s env now m h hc
    unfold process_file
    rw [if_neg h, hc]
  · intro s env now d h hc hp
    unfold process_file
    rw [if_neg h, hc, hp]

/-- Claim C8 witness: the empty-text pipeline applied at a concrete
file whose classification outcome is an error that is never consulted;
the produced record carries the fixed fallback reasoning. -/
theorem claim_C8_witness :
    process_file movedFile
        { extraction := { text := "", stats := [("error", "eek")] },
          classify := Except.error "never called", persist := Except.ok () } "t"
      = Except.ok (FileRecord.from_scan_and_decision movedFile
          { text := "", stats := [("error", "eek")] }
          (RetentionDecision.fallback "No text extracted from document") "t") ∧
    (FileRecord.from_scan_and_decision movedFile
        { text := "", stats := [("error", "eek")] }
        (RetentionDecision.fallback "No text extracted from document") "t").reasoning
      = "No text extracted from document" := by
  have hok : process_file movedFile
      { extraction := { text := "", stats := [("error", "eek")] },
        classify := Except.error "never called", persist := Except.ok () } "t"
      = Except.ok (FileRecord.from_scan_and_decision movedFile
          { text := "", stats := [("error", "eek")] }
          (RetentionDecision.fallback "No text extracted from document") "t") := rfl
  refine ⟨hok, ?_⟩
  exact (claim_C8_empty_text_shortcircuit.2.1 movedFile
      { extraction := { text := "", stats := [("error", "eek")] },
        classify := Except.error "never called", persist := Except.ok () } "t" _ rfl hok).2.2.2.2

/-- Claim C5 counterexample: a second run over an unchanged file set
need not process zero files. Start from a store holding one row at
path q carrying hash h; the scan holds movedFile (path p, unchanged
content h) and changedFile (path q, new content h2). The first run
skips movedFile (its hash is recorded) and processes changedFile, and
the path-keyed upsert replaces the only row carrying h. The second run
over the same scan therefore processes movedFile again: its filter
result is the non-empty list containing movedFile. -/
theorem claim_C5_counterexample :
    get_unprocessed_files [priorRow] [movedFile, changedFile] = [changedFile] ∧
    get_unprocessed_files
        (process_all [(movedFile, okEnv), (changedFile, okEnv)] [priorRow] "t1").2
        [movedFile, changedFile] = [movedFile] := by
  exact ⟨rfl, rfl⟩

/-- Claim C5 amended: the resumability filter is keyed on the content
fingerprint only: a scanned file is kept exactly when its hash is not
among the stored hashes, so a batch excludes every file whose
fingerprint is already recorded (zero files remain when all scanned
fingerprints are recorded), a moved-but-unchanged file is skipped and
a changed file is reprocessed, and whether a file passes the filter
depends only on its hash, never on its path. The second-run-zero
consequence holds provided every scanned fingerprint is still recorded
after the first run; the path-keyed upsert can break that proviso (see
the counterexample). -/
theorem claim_C5_amended_thm :
    (∀ (store : List FileRecord) (scanned : List ScannedFile) (f : ScannedFile),
       f ∈ get_unprocessed_files store scanned ↔
         f ∈ scanned ∧ f.file_hash ∉ get_processed_hashes store) ∧
    (∀ (store : List FileRecord) (scanned : List ScannedFile),
       (∀ f ∈ scanned, f.file_hash ∈ get_processed_hashes store) →
       get_unprocessed_files store scanned = []) ∧
    (∀ (store : List FileRecord) (f g : ScannedFile), f.file_hash = g.file_hash →
       (f ∈ get_unprocessed_files store [f] ↔ g ∈ get_unprocessed_files store [g])) := by
  have hmem : ∀ (store : List FileRecord) (scanned : List ScannedFile) (f : ScannedFile),
      f ∈ get_unprocessed_files store scanned ↔
        f ∈ scanned ∧ f.file_hash ∉ get_processed_hashes store := by
    intro store scanned f
    simp [get_unprocessed_files, List.mem_filter]
  refine ⟨hmem, ?_, ?_⟩
  · intro store scanned h
    unfold get_unprocessed_files
    rw [List.filter_eq_nil_iff]
    intro f hf
    simp [h f hf]
  · intro store f g h
    rw [hmem, hmem, h]
    simp

/-- Claim C5 amended witness: the all-recorded case applied to a
concrete store and scan: every scanned hash is recorded, so the filter
excludes everything. -/
theorem claim_C5_amended_witness :
    (∀ f ∈ [movedFile], f.file_hash ∈ get_processed_hashes [priorRow]) ∧
    get_unprocessed_files [priorRow] [movedFile] = [] := by
  have hall : ∀ f ∈ [movedFile], f.file_hash ∈ get_processed_hashes [priorRow] := by
    intro f hf
    simp only [List.mem_singleton] at hf
    subst hf
    decide
  exact ⟨hall, claim_C5_amended_thm.2.1 [priorRow] [movedFile] hall⟩

/-- A successful process_file returns exactly the record built by
FileRecord.from_scan_and_decision for that file. -/
theorem process_file_ok_record {s : ScannedFile} {env : FileEnv} {now : String} {r : FileRecord}
    (h : process_file s env now = Except.ok r) :
    ∃ d, r = FileRecord.from_scan_and_decision s env.extraction d now := by
  unfold process_file at h
  cases hd : (if env.extraction.text = "" then
      Except.ok (RetentionDecision.fallback "No text extracted from document")
    else env.classify) with
  | error e =>
    rw [hd] at h
    exact absurd h (by simp)
  | ok d =>
    rw [hd] at h
    cases hp : env.persist with
    | error e =>
      rw [hp] at h
      exact absurd h (by simp)
    | ok u =>
      cases u
      rw [hp] at h
      simp only [Except.ok.injEq] at h
      exact ⟨d, h.symm⟩

/-- The hashes present after a path-keyed upsert: the new record hash
or a hash that was already present. -/
theorem mem_hashes_insert {store : List FileRecord} {r : FileRecord} {h : String}
    (hmem : h ∈ get_processed_hashes (insert_or_update_file store r)) :
    h = r.file_hash ∨ h ∈ get_processed_hashes store := by
  unfold insert_or_update_file at hmem
  by_cases hx : store.any (fun x => x.file_path == r.file_path)
  · rw [if_pos hx] at hmem
    unfold get_processed_hashes at hmem ⊢
    rw [List.map_map] at hmem
    rcases List.mem_map.mp hmem with ⟨x, hxm, heq⟩
    simp only [Function.comp] at heq
    by_cases hc : x.file_path == r.file_path
    · rw [if_pos hc] at heq
      exact Or.inl heq.symm
    · rw [if_neg hc] at heq
      exact Or.inr (List.mem_map.mpr ⟨x, hxm, heq⟩)
  · rw [if_neg hx] at hmem
    unfold get_processed_hashes at hmem ⊢
    rw [List.map_append] at hmem
    rcases List.mem_append.mp hmem with hold | hnew
    · exact Or.inr hold
    · simp only [List.map_cons, List.map_nil, List.mem_singleton] at hnew
      exact Or.inl hnew

/-- The outcome list of the task loop: exactly the records of the
tasks whose process_file succeeded, in order, independent of the
store. -/
theorem run_tasks_fst (now : String) (l : List (ScannedFile × FileEnv)) :
    ∀ store, (run_tasks now l store).1
      = l.filterMap (fun fe => (process_file fe.1 fe.2 now).toOption) := by
  induction l with
  | nil => intro store; rfl
  | cons fe rest ih =>
    intro store
    obtain ⟨f, env⟩ := fe
    cases hp : process_file f env now with
    | ok r => simp [run_tasks, hp, List.filterMap_cons, ih, Except.toOption]
    | error e => simp [run_tasks, hp, List.filterMap_cons, ih, Except.toOption]

/-- Every hash present in the store after the task loop was either
present before or belongs to a task whose process_file succeeded. -/
theorem run_tasks_hashes (now : String) (l : List (ScannedFile × FileEnv)) :
    ∀ (store : List FileRecord) (h : String),
      h ∈ get_processed_hashes (run_tasks now l store).2 →
      h ∈ get_processed_hashes store ∨
        ∃ fe, fe ∈ l ∧ fe.1.file_hash = h ∧ (process_file fe.1 fe.2 now).isOk = true := by
  induction l with
  | nil => intro store h hh; exact Or.inl hh
  | cons fe rest ih =>
    intro store h hh
    obtain ⟨f, env⟩ := fe
    cases hp : process_file f env now with
    | ok r =>
      simp only [run_tasks, hp] at hh
      rcases ih (insert_or_update_file store r) h hh with hin | ⟨fe, hfe, hhash, hok⟩
      · rcases mem_hashes_insert hin with heq | hold
        · obtain ⟨d, rfl⟩ := process_file_ok_record hp
          refine Or.inr ⟨(f, env), List.mem_cons_self _ _, ?_, ?_⟩
          · rw [heq]; rfl
          · rw [hp]; rfl
        · exact Or.inl hold
      · exact Or.inr ⟨fe, List.mem_cons_of_mem _ hfe, hhash, hok⟩
    | error e =>
      simp only [run_tasks, hp] at hh
      rcases ih store h hh with hin | ⟨fe, hfe, hhash, hok⟩
      · exact Or.inl hin
      · exact Or.inr ⟨fe, List.mem_cons_of_mem _ hfe, hhash, hok⟩

/-- Claim C9 amended: the batch loop returns exactly the records of
the tasks that succeeded (a partial list: every failed task is
absent), every hash recorded by the batch comes from a successful
task, and a file of the batch whose pipeline failed remains eligible
for reprocessing on the next run provided no successful task of the
batch shares its fingerprint (see the counterexample for the duplicate
case). -/
theorem claim_C9_failure_isolation :
    ∀ (files : List (ScannedFile × FileEnv)) (store : List FileRecord) (now : String),
      ((process_all files store now).1
        = (files.filter (fun fe => !(get_processed_hashes store).contains fe.1.file_hash)).filterMap
            (fun fe => (process_file fe.1 fe.2 now).toOption)) ∧
      (∀ h, h ∈ get_processed_hashes (process_all files store now).2 →
         h ∈ get_processed_hashes store ∨
           ∃ fe, fe ∈ files ∧ fe.1.file_hash = h ∧ (process_file fe.1 fe.2 now).isOk = true) ∧
      (∀ (f : ScannedFile) (env : FileEnv), (f, env) ∈ files →
         f.file_hash ∉ get_processed_hashes store →
         (∀ (g : ScannedFile) (genv : FileEnv), (g, genv) ∈ files → g.file_hash = f.file_hash →
            (process_file g genv now).isOk = false) →
         f ∈ get_unprocessed_files (process_all files store now).2 [f]) := by
  intro files store now
  refine ⟨?_, ?_, ?_⟩
  · unfold process_all
    exact run_tasks_fst now _ store
  · intro h hh
    unfold process_all at hh
    rcases run_tasks_hashes now _ store h hh with hin | ⟨fe, hfe, hhash, hok⟩
    · exact Or.inl hin
    · exact Or.inr ⟨fe, List.mem_of_mem_filter hfe, hhash, hok⟩
  · intro f env hmem hnot hall
    have hnotin : f.file_hash ∉ get_processed_hashes (process_all files store now).2 := by
      intro hin
      unfold process_all at hin
      rcases run_tasks_hashes now _ store f.file_hash hin with hin2 | ⟨fe, hfe, hhash, hok⟩
      · exact hnot hin2
      · have hfe2 : fe ∈ files := List.mem_of_mem_filter hfe
        have hfalse := hall fe.1 fe.2 (by rw [Prod.mk.eta]; exact hfe2) hhash
        rw [hfalse] at hok
        exact absurd hok (by simp)
    refine List.mem_filter.mpr ⟨List.mem_singleton_self f, ?_⟩
    simp [hnotin]

/-- Claim C9 witness: a single-file batch whose classification raises:
the task result is not ok, the batch returns the empty outcome list,
and the file passes the next resumability filter. -/
theorem claim_C9_witness :
    (process_file failFile failEnv "now").isOk = false ∧
    (process_all [(failFile, failEnv)] [] "now").1 = [] ∧
    failFile ∈ get_unprocessed_files (process_all [(failFile, failEnv)] [] "now").2 [failFile] := by
  refine ⟨rfl, ?_, ?_⟩
  · rw [(claim_C9_failure_isolation [(failFile, failEnv)] [] "now").1]
    rfl
  · refine (claim_C9_failure_isolation [(failFile, failEnv)] [] "now").2.2 failFile failEnv
      (List.mem_singleton_self _) (by simp [get_processed_hashes]) ?_
    intro g genv hg hhash
    simp only [List.mem_singleton, Prod.mk.injEq] at hg
    obtain ⟨rfl, rfl⟩ := hg
    rfl

/-- Claim C9 counterexample: a failed file does not always remain
eligible for reprocessing. In a batch holding two files with the same
fingerprint dh, the pipeline of dupA fails entirely while its
duplicate-content sibling dupB succeeds and records dh; the next run
filter on the single file dupA then returns the empty list, so dupA is
excluded from reprocessing even though its own task failed and no row
for its path was written. -/
theorem claim_C9_counterexample :
    (process_file dupA failEnv "now").isOk = false ∧
    get_unprocessed_files (process_all [(dupA, failEnv), (dupB, okEnv)] [] "now").2 [dupA]
      = [] := by
  exact ⟨rfl, rfl⟩
